import Mathlib

/-!
# Verification of `copy-docker-image` (src/main.go)

A shallow embedding of the single-source-file Go program that copies a
Docker image (manifest and layers) between two registries.  External
collaborators (the registry HTTP client, the AWS ECR client, the file
system) are modelled as oracles: each call site receives its result from
an oracle record, and every external call performed is recorded in an
event trace.  The control flow, the strings built for error messages,
and the data flowing between calls are translated directly from the Go
source.  Byte streams (layer blob contents) are abstracted to `Unit`
because no claim concerns blob contents, only which calls happen.
-/

namespace CopyDockerImage

/-- Go `strings.Split(s, sep)` for a single-character separator, on
`List Char`: splits at every occurrence of the separator; always returns
at least one (possibly empty) field.  Mirrors Go semantics, under which
`strings.Split("", ":") = [""]` and `strings.Split("a:b", ":") = ["a","b"]`. -/
def splitOnChar : List Char → Char → List (List Char)
  | [], _ => [[]]
  | c :: cs, sep =>
    let r := splitOnChar cs sep
    if c = sep then [] :: r
    else
      match r with
      | [] => [[c]]
      | h :: t => (c :: h) :: t

/-- Go `strings.Split` on `String`, single-character separator. -/
def goSplit (s : String) (sep : Char) : List String :=
  (splitOnChar s.toList sep).map (fun l => String.mk l)

/-- The character class `[\w\d-]` of Go's RE2: ASCII word characters
(letters, digits, underscore) and the hyphen. -/
def isEcrRegionChar (c : Char) : Bool :=
  c.isAlpha || c.isDigit || c = '_' || c = '-'

/-- Attempt to match the ECR hostname regular expression
`([0-9]{12})\.dkr\.ecr\.([\w\d-]+)\.amazonaws\.com` at the very start of
the character list; returns the two submatches (account id, region).
The pattern is rigid: 12 digits, the literal `.dkr.ecr.`, a maximal
nonempty run of `[\w\d-]` (which cannot include `.`, so greediness is
forced), then the literal `.amazonaws.com`. -/
def ecrMatchAt (cs : List Char) : Option (String × String) :=
  let digits := cs.take 12
  if digits.length = 12 && digits.all Char.isDigit then
    let rest := cs.drop 12
    if (".dkr.ecr.").toList.isPrefixOf rest then
      let rest2 := rest.drop 9
      let region := rest2.takeWhile isEcrRegionChar
      let rest3 := rest2.dropWhile isEcrRegionChar
      if !region.isEmpty && (".amazonaws.com").toList.isPrefixOf rest3 then
        some (String.mk digits, String.mk region)
      else none
    else none
  else none

/-- Leftmost match of the ECR pattern in the character list: the embedding
of `regexp.FindAllStringSubmatch(url, -1)` restricted to its first match
(the Go code only reads `r2[0]`). -/
def ecrFindAux : List Char → Option (String × String)
  | [] => none
  | c :: cs =>
    match ecrMatchAt (c :: cs) with
    | some r => some r
    | none => ecrFindAux cs

/-- First (leftmost) match of the ECR hostname pattern in a URL string,
giving `(account id, region)`; `none` when the URL does not contain the
managed-registry pattern.  Embeds lines 123–128 of src/main.go. -/
def ecrFind (s : String) : Option (String × String) :=
  ecrFindAux s.toList

/-- The fields of `schema1.Manifest` used by the program: `Name`, `Tag`,
`Architecture`, the ordered layer digests (`FSLayers`, each reduced to its
`BlobSum` digest string), and `History` (reduced to plain strings).
Layer blob contents are not part of the manifest. -/
structure Manifest where
  name : String
  tag : String
  architecture : String
  fsLayers : List String
  history : List String
deriving DecidableEq, Repr

/-- The observable state of a `registry.Registry` handle as the program
uses it: the URL it was built for and the credentials passed to
`registry.New`.  The handle's methods are oracles. -/
structure Registry where
  url : String
  username : String
  password : String
deriving DecidableEq, Repr

/-- One external call performed by the program.  Runs of the embedded
functions return, next to their result, the trace of such events in
execution order. -/
inductive Ev where
  /-- `ecr.GetAuthorizationToken` for the given registry id, in a session
  for the given region. -/
  | getAuthToken (registryId region : String)
  /-- `registry.New(url, username, password)`. -/
  | registryNew (url username password : String)
  /-- `registry.Ping()` of the handle built for `url`. -/
  | ping (url : String)
  /-- `destHub.HasLayer(repo, digest)`. -/
  | hasLayer (repo digest : String)
  /-- `ioutil.TempFile("", "docker-image")`. -/
  | tempCreate
  /-- `srcHub.DownloadLayer(repo, digest)`. -/
  | downloadLayer (repo digest : String)
  /-- `destHub.UploadLayer(repo, digest, stream)`. -/
  | uploadLayer (repo digest : String)
  /-- `os.Remove(name)` of the temp file. -/
  | tempRemove (name : String)
  /-- The `fmt.Printf` logging a failed temp-file removal (the failure is
  absorbed, not returned). -/
  | logTempRemoveFail (name : String)
  /-- `srcHub.Manifest(repo, tag)`. -/
  | manifestFetch (repo tag : String)
  /-- `destHub.PutManifest(repo, tag, m)`. -/
  | putManifest (repo tag : String) (m : Manifest)
deriving DecidableEq, Repr

/-- Is the event a `DownloadLayer` call? -/
def Ev.isDownload : Ev → Bool
  | .downloadLayer _ _ => true
  | _ => false

/-- Is the event an `UploadLayer` call? -/
def Ev.isUpload : Ev → Bool
  | .uploadLayer _ _ => true
  | _ => false

/-- Is the event a layer operation (`HasLayer`, `DownloadLayer` or
`UploadLayer`)? -/
def Ev.isLayerOp : Ev → Bool
  | .hasLayer _ _ => true
  | .downloadLayer _ _ => true
  | .uploadLayer _ _ => true
  | _ => false

/-- Is the event a cloud credential exchange (`GetAuthorizationToken`)? -/
def Ev.isAuthExchange : Ev → Bool
  | .getAuthToken _ _ => true
  | _ => false

/-- Is the event a `PutManifest` call? -/
def Ev.isPutManifest : Ev → Bool
  | .putManifest _ _ _ => true
  | _ => false

/-- Is the event one of the calls `connectToRegistry` can make
(credential exchange, client construction, ping)? -/
def Ev.isConnEv : Ev → Bool
  | .getAuthToken _ _ => true
  | .registryNew _ _ _ => true
  | .ping _ => true
  | _ => false

/-- Oracle for the external calls of one `migrateLayer` invocation:
the result each call would return, in the order the code can make them.
Blob contents are abstracted to `Unit`. -/
structure LayerOracle where
  /-- Result of `destHub.HasLayer(destRepo, digest)`. -/
  hasLayerRes : Except String Bool
  /-- Result of `ioutil.TempFile("", "docker-image")`: the temp file name. -/
  tempRes : Except String String
  /-- Result of `srcHub.DownloadLayer(srcRepo, digest)`. -/
  downloadRes : Except String Unit
  /-- Result of `io.Copy(file, srcImageReader)`. -/
  copyRes : Except String Unit
  /-- Result of `os.Open(file.Name())` (re-opening for upload). -/
  openRes : Except String Unit
  /-- Result of `destHub.UploadLayer(destRepo, digest, stream)`. -/
  uploadRes : Except String Unit
  /-- Result of `os.Remove(tempFile.Name())`. -/
  removeRes : Except String Unit
deriving Repr

/-- Embedding of `moveLayerUsingFile` (src/main.go lines 33–59):
download the layer from the source, copy it into the temp file, re-open
the file and upload it to the destination; first failure aborts with the
corresponding wrapped error message. -/
def moveLayerUsingFile (srcRepo destRepo digest : String) (o : LayerOracle) :
    Except String Unit × List Ev :=
  match o.downloadRes with
  | .error e =>
    (.error ("Failure while starting the download of an image layer. " ++ e),
     [.downloadLayer srcRepo digest])
  | .ok _ =>
    match o.copyRes with
    | .error e =>
      (.error ("Failure while copying the image layer to a temp file. " ++ e),
       [.downloadLayer srcRepo digest])
    | .ok _ =>
      match o.openRes with
      | .error e =>
        (.error ("Failed to open temporary image layer for uploading. " ++ e),
         [.downloadLayer srcRepo digest])
      | .ok _ =>
        match o.uploadRes with
        | .error e =>
          (.error ("Failure while uploading the image. " ++ e),
           [.downloadLayer srcRepo digest, .uploadLayer destRepo digest])
        | .ok _ =>
          (.ok (), [.downloadLayer srcRepo digest, .uploadLayer destRepo digest])

/-- Embedding of `migrateLayer` (src/main.go lines 61–89): check layer
existence at the destination; skip when present; otherwise create a temp
file, run `moveLayerUsingFile`, and always attempt to remove the temp
file, only logging (never returning) a removal failure. -/
def migrateLayer (srcRepo destRepo digest : String) (o : LayerOracle) :
    Except String Unit × List Ev :=
  match o.hasLayerRes with
  | .error e =>
    (.error ("Failure while checking if the destination registry contained an image layer. " ++ e),
     [.hasLayer destRepo digest])
  | .ok true => (.ok (), [.hasLayer destRepo digest])
  | .ok false =>
    match o.tempRes with
    | .error e =>
      (.error ("Failure while creating temporary file for an image layer download. " ++ e),
       [.hasLayer destRepo digest, .tempCreate])
    | .ok name =>
      match moveLayerUsingFile srcRepo destRepo digest o with
      | (res, evs) =>
        let removeEvs :=
          match o.removeRes with
          | .error _ => [Ev.tempRemove name, Ev.logTempRemoveFail name]
          | .ok _ => [Ev.tempRemove name]
        (res, [Ev.hasLayer destRepo digest, Ev.tempCreate] ++ evs ++ removeEvs)

/-- Outcome of `connectToRegistry`: a runtime panic (Go out-of-range slice
index), an error return, or a connected `Registry` handle. -/
inductive COut where
  | panic
  | err (msg : String)
  | ok (r : Registry)
deriving DecidableEq, Repr

/-- Oracle for the external calls of one `connectToRegistry` invocation. -/
structure ConnOracle where
  /-- Result of `session.NewSession(&aws.Config{Region: ...})`. -/
  sessionRes : Except String Unit
  /-- Result of `svc.GetAuthorizationToken(params)`: the base64
  authorization token and the proxy endpoint URL. -/
  tokenRes : Except String (String × String)
  /-- Result of `base64.StdEncoding.DecodeString` applied to the token
  the service returned (the decoding itself is Go standard-library code,
  outside this repository). -/
  decodeRes : Except String String
  /-- Result of `registry.New(url, username, password)`. -/
  newRes : Except String Unit
  /-- Result of `registry.Ping()`. -/
  pingRes : Except String Unit
deriving Repr

/-- The tail of `connectToRegistry` (src/main.go lines 159–169), shared by
the ECR and non-ECR paths: `registry.New(url, username, password)` then
`registry.Ping()`; both error messages cite the original URL. -/
def newAndPing (origUrl url username password : String)
    (newRes pingRes : Except String Unit) (evs : List Ev) : COut × List Ev :=
  match newRes with
  | .error e =>
    (.err ("Failed to create registry connection for " ++ origUrl ++ ". " ++ e),
     evs ++ [.registryNew url username password])
  | .ok _ =>
    match pingRes with
    | .error e =>
      (.err ("Failed to ping registry " ++ origUrl ++ " as a connection test. " ++ e),
       evs ++ [.registryNew url username password, .ping url])
    | .ok _ =>
      (.ok ⟨url, username, password⟩,
       evs ++ [.registryNew url username password, .ping url])

/-- Embedding of `connectToRegistry` (src/main.go lines 117–170).  If the
URL contains the ECR hostname pattern, exchange AWS credentials for an
authorization token, base64-decode it, split the decoded text on every
`:` and use fields 0 and 1 as username and password (Go `parts[1]` panics
when the decoded text holds no `:`), and replace the URL by the returned
proxy endpoint; otherwise keep the URL with empty credentials.  Then
build the registry client and ping it. -/
def connectToRegistry (origUrl : String) (o : ConnOracle) : COut × List Ev :=
  match ecrFind origUrl with
  | none => newAndPing origUrl origUrl "" "" o.newRes o.pingRes []
  | some (registryId, region) =>
    match o.sessionRes with
    | .error e => (.err ("Failed to create new AWS SDK session. " ++ e), [])
    | .ok _ =>
      match o.tokenRes with
      | .error e =>
        (.err ("Failed to get ECR authorization token for registry " ++ registryId ++ ". " ++ e),
         [.getAuthToken registryId region])
      | .ok (_, proxyEndpoint) =>
        match o.decodeRes with
        | .error e =>
          (.err ("Failed to decode base64 encoded authorization data for ECR registry " ++ registryId ++ ". " ++ e),
           [.getAuthToken registryId region])
        | .ok decoded =>
          match goSplit decoded ':' with
          | p0 :: p1 :: _ =>
            newAndPing origUrl proxyEndpoint p0 p1 o.newRes o.pingRes
              [.getAuthToken registryId region]
          | _ => (.panic, [.getAuthToken registryId region])

/-- The command-line inputs after `kingpin.Parse()`: the six positional
flags plus the shared `--repo` and `--tag` fallbacks (`--tag` carries the
parser-level default `latest` when not given on the command line). -/
structure Args where
  srcURL : String
  destURL : String
  srcRepo : String
  destRepo : String
  srcTag : String
  destTag : String
  repo : String
  tag : String
deriving Repr

/-- The effective source repository after the `--repo` fallback
(src/main.go lines 184–186). -/
def effSrcRepo (a : Args) : String :=
  if a.srcRepo = "" then a.repo else a.srcRepo

/-- The effective destination repository after the `--repo` fallback
(src/main.go lines 187–189). -/
def effDestRepo (a : Args) : String :=
  if a.destRepo = "" then a.repo else a.destRepo

/-- The effective source tag after the `--tag` fallback. -/
def effSrcTag (a : Args) : String :=
  if a.srcTag = "" then a.tag else a.srcTag

/-- The effective destination tag after the `--tag` fallback. -/
def effDestTag (a : Args) : String :=
  if a.destTag = "" then a.tag else a.destTag

/-- Oracle for one whole run of `main`. -/
structure MainOracle where
  /-- Oracle for the source `connectToRegistry` call. -/
  srcConn : ConnOracle
  /-- Oracle for the destination `connectToRegistry` call. -/
  destConn : ConnOracle
  /-- Result of `srcHub.Manifest(srcRepo, srcTag)`. -/
  manifestRes : Except String Manifest
  /-- Oracle for the `i`-th `migrateLayer` call (by position in the
  manifest's layer list). -/
  layerO : Nat → LayerOracle
  /-- Result of `destHub.PutManifest(destRepo, destTag, destManifest)`. -/
  putRes : Except String Unit

/-- Outcome of a `main` run: a runtime panic, or process exit with the
`exitCode` the deferred handler passes to `os.Exit` and the diagnostic
printed for a failure (empty on success). -/
inductive MOut where
  | panic
  | exit (code : Int) (msg : String)
deriving DecidableEq, Repr

/-- The layer loop of `main` (src/main.go lines 231–238): run
`migrateLayer` over the digests in manifest order, stopping at the first
failure.  `i` indexes the per-layer oracles. -/
def migrateLayers (srcRepo destRepo : String) (los : Nat → LayerOracle) :
    List String → Nat → Except String Unit × List Ev
  | [], _ => (.ok (), [])
  | d :: ds, i =>
    match migrateLayer srcRepo destRepo d (los i) with
    | (.error e, evs) => (.error e, evs)
    | (.ok _, evs) =>
      match migrateLayers srcRepo destRepo los ds (i + 1) with
      | (r, evs2) => (r, evs ++ evs2)

/-- The destination-manifest construction of `main` (src/main.go lines
240–244): a `SignedManifest` holding a value copy of the source manifest
struct, whose `Name` field is then set to the destination repository.
The Go assignment `destManifest.Manifest.Name = ...` writes into that
copy, not into the fetched source manifest. -/
def buildDestManifest (src : Manifest) (destRepo : String) : Manifest :=
  { src with name := destRepo }

/-- The copy discipline of the publish step, as a pure state transformer:
it yields the source manifest as it stands after the step together with
the manifest handed to `PutManifest`.  Because `schema1.Manifest` is
copied by value into `destManifest`, the source manifest is returned
unchanged. -/
def publishManifests (src : Manifest) (destRepo : String) : Manifest × Manifest :=
  (src, buildDestManifest src destRepo)

/-- Embedding of `main` (src/main.go lines 172–252): apply the
`--repo`/`--tag` fallbacks, validate the repository names, connect to the
source then the destination registry, fetch the source manifest, migrate
every layer in order, and publish the renamed manifest copy. -/
def main (a : Args) (o : MainOracle) : MOut × List Ev :=
  let srcRepo := effSrcRepo a
  let destRepo := effDestRepo a
  let srcTag := effSrcTag a
  let destTag := effDestTag a
  if srcRepo = "" then
    (.exit (-1) "A source repository name is required either with --src-repo or --repo", [])
  else if destRepo = "" then
    (.exit (-1) "A destination repository name is required either with --dest-repo or --repo", [])
  else
    match connectToRegistry a.srcURL o.srcConn with
    | (.panic, evs) => (.panic, evs)
    | (.err e, evs) =>
      (.exit (-1) ("Failed to establish a connection to the source registry. " ++ e), evs)
    | (.ok srcHub, evs1) =>
      match connectToRegistry a.destURL o.destConn with
      | (.panic, evs) => (.panic, evs1 ++ evs)
      | (.err e, evs) =>
        (.exit (-1) ("Failed to establish a connection to the destination registry. " ++ e),
         evs1 ++ evs)
      | (.ok destHub, evs2) =>
        match o.manifestRes with
        | .error e =>
          (.exit (-1) ("Failed to fetch the manifest for " ++ srcHub.url ++ "/" ++ srcRepo
             ++ ":" ++ srcTag ++ ". " ++ e),
           evs1 ++ evs2 ++ [.manifestFetch srcRepo srcTag])
        | .ok manifest =>
          match migrateLayers srcRepo destRepo o.layerO manifest.fsLayers 0 with
          | (.error e, levs) =>
            (.exit (-1) ("Failed to migrate image layer. " ++ e),
             evs1 ++ evs2 ++ [.manifestFetch srcRepo srcTag] ++ levs)
          | (.ok _, levs) =>
            let destManifest := buildDestManifest manifest destRepo
            match o.putRes with
            | .error e =>
              (.exit (-1) ("Failed to upload manifest to " ++ destHub.url ++ "/" ++ destRepo
                 ++ ":" ++ destTag ++ ". " ++ e),
               evs1 ++ evs2 ++ [.manifestFetch srcRepo srcTag] ++ levs
                 ++ [.putManifest destRepo destTag destManifest])
            | .ok _ =>
              (.exit 0 "",
               evs1 ++ evs2 ++ [.manifestFetch srcRepo srcTag] ++ levs
                 ++ [.putManifest destRepo destTag destManifest])

/-- The spec's data-model invariant on produced credentials, stated from
§3 of the specification: username and password are both set or both
empty, never one without the other. -/
def credBalanced (r : Registry) : Prop :=
  r.username = "" ↔ r.password = ""

instance (r : Registry) : Decidable (credBalanced r) := by
  unfold credBalanced
  infer_instance

/-- Does the event deliver to `PutManifest` anything other than the given
manifest under the given repository name?  `true` for every non-publish
event; a publish event must carry exactly `(dest, _, dm)`. -/
def putOnly (dest : String) (dm : Manifest) (ev : Ev) : Bool :=
  match ev with
  | .putManifest r _ m => decide (r = dest) && decide (m = dm)
  | _ => true

/-- A layer oracle in which every external call succeeds and the
destination already holds the layer. -/
def layerOraclePresent : LayerOracle :=
  { hasLayerRes := .ok true, tempRes := .ok "tmp0", downloadRes := .ok (),
    copyRes := .ok (), openRes := .ok (), uploadRes := .ok (),
    removeRes := .ok () }

/-- A layer oracle in which the destination lacks the layer and every
transfer step succeeds. -/
def layerOracleAbsentOk : LayerOracle :=
  { hasLayerRes := .ok false, tempRes := .ok "tmp1", downloadRes := .ok (),
    copyRes := .ok (), openRes := .ok (), uploadRes := .ok (),
    removeRes := .ok () }

/-- A layer oracle in which the destination lacks the layer and the
download call fails. -/
def layerOracleDownloadFail : LayerOracle :=
  { hasLayerRes := .ok false, tempRes := .ok "tmp2", downloadRes := .error "boom",
    copyRes := .ok (), openRes := .ok (), uploadRes := .ok (),
    removeRes := .ok () }

/-- A layer oracle in which the destination lacks the layer and the
`io.Copy` into the temp file fails. -/
def layerOracleCopyFail : LayerOracle :=
  { hasLayerRes := .ok false, tempRes := .ok "tmp3", downloadRes := .ok (),
    copyRes := .error "disk full", openRes := .ok (), uploadRes := .ok (),
    removeRes := .ok () }

/-- A connection oracle in which every external call succeeds; the token
decodes to the well-formed payload `AWS:secret`. -/
def connOracleOk : ConnOracle :=
  { sessionRes := .ok (), tokenRes := .ok ("dG9r", "https://proxy.example"),
    decodeRes := .ok "AWS:secret", newRes := .ok (), pingRes := .ok () }

/-- A connection oracle whose token decodes to `AWS:pa:ss`, a payload
holding two `:` separators. -/
def connOracleTwoColons : ConnOracle :=
  { sessionRes := .ok (), tokenRes := .ok ("dG9r", "https://proxy.example"),
    decodeRes := .ok "AWS:pa:ss", newRes := .ok (), pingRes := .ok () }

/-- A connection oracle whose token decodes to `abc`, a payload with no
`:` separator. -/
def connOracleNoColon : ConnOracle :=
  { sessionRes := .ok (), tokenRes := .ok ("YWJj", "https://proxy.example"),
    decodeRes := .ok "abc", newRes := .ok (), pingRes := .ok () }

/-- A connection oracle whose token decodes to `AWS:`, a payload with an
empty password field. -/
def connOracleEmptyPassword : ConnOracle :=
  { sessionRes := .ok (), tokenRes := .ok ("QVdTOg==", "https://proxy.example"),
    decodeRes := .ok "AWS:", newRes := .ok (), pingRes := .ok () }

/-- A connection oracle whose ping fails. -/
def connOraclePingFail : ConnOracle :=
  { sessionRes := .ok (), tokenRes := .ok ("dG9r", "https://proxy.example"),
    decodeRes := .ok "AWS:secret", newRes := .ok (), pingRes := .error "dial timeout" }

/-- A sample ECR registry URL. -/
def ecrUrl : String := "123456789012.dkr.ecr.us-east-1.amazonaws.com"

/-- A sample non-ECR registry URL. -/
def plainUrl : String := "registry.example.com"

/-- A sample source manifest with two layers. -/
def sampleManifest : Manifest :=
  { name := "srcrepo", tag := "latest", architecture := "amd64",
    fsLayers := ["sha256:d1", "sha256:d2"], history := ["h1", "h2"] }

/-- Arguments for a fully specified run between two plain registries. -/
def sampleArgs : Args :=
  { srcURL := "registry.example.com", destURL := "backup.example.com",
    srcRepo := "srcrepo", destRepo := "dstrepo", srcTag := "", destTag := "",
    repo := "", tag := "latest" }

/-- Arguments with no source repository: both `--src-repo` and `--repo`
are empty. -/
def argsNoSrcRepo : Args :=
  { srcURL := "registry.example.com", destURL := "backup.example.com",
    srcRepo := "", destRepo := "dstrepo", srcTag := "", destTag := "",
    repo := "", tag := "latest" }

/-- A main oracle in which everything succeeds and the destination
already holds both layers. -/
def mainOracleOk : MainOracle :=
  { srcConn := connOracleOk, destConn := connOracleOk,
    manifestRes := .ok sampleManifest,
    layerO := fun _ => layerOraclePresent, putRes := .ok () }

/-- A main oracle in which the destination connection's ping fails. -/
def mainOracleDestPingFail : MainOracle :=
  { srcConn := connOracleOk, destConn := connOraclePingFail,
    manifestRes := .ok sampleManifest,
    layerO := fun _ => layerOraclePresent, putRes := .ok () }

-- Sanity checks: the embedding evaluates on concrete inputs.
example : ecrFind "123456789012.dkr.ecr.us-east-1.amazonaws.com" =
    some ("123456789012", "us-east-1") := by decide
example : ecrFind "https://1123456789012.dkr.ecr.eu-west-2.amazonaws.com/v2" =
    some ("123456789012", "eu-west-2") := by decide
example : ecrFind "registry.example.com" = none := by decide
example : goSplit "AWS:pa:ss" ':' = ["AWS", "pa", "ss"] := by decide
example : goSplit "abc" ':' = ["abc"] := by decide
example : goSplit "" ':' = [""] := by decide
example : goSplit "AWS:" ':' = ["AWS", ""] := by decide
example :
    migrateLayer "s" "d" "sha256:x"
      { hasLayerRes := .ok true, tempRes := .ok "t", downloadRes := .ok (),
        copyRes := .ok (), openRes := .ok (), uploadRes := .ok (),
        removeRes := .ok () } = (.ok (), [.hasLayer "d" "sha256:x"]) := rfl
example :
    migrateLayer "s" "d" "sha256:x"
      { hasLayerRes := .ok false, tempRes := .ok "t", downloadRes := .error "boom",
        copyRes := .ok (), openRes := .ok (), uploadRes := .ok (),
        removeRes := .ok () } =
    (.error "Failure while starting the download of an image layer. boom",
     [.hasLayer "d" "sha256:x", .tempCreate, .downloadLayer "s" "sha256:x",
      .tempRemove "t"]) := rfl
example : connectToRegistry ecrUrl connOracleOk =
    (.ok ⟨"https://proxy.example", "AWS", "secret"⟩,
     [.getAuthToken "123456789012" "us-east-1",
      .registryNew "https://proxy.example" "AWS" "secret",
      .ping "https://proxy.example"]) := by decide
example : connectToRegistry ecrUrl connOracleNoColon =
    (.panic, [.getAuthToken "123456789012" "us-east-1"]) := by decide
example : connectToRegistry plainUrl connOracleOk =
    (.ok ⟨plainUrl, "", ""⟩,
     [.registryNew plainUrl "" "", .ping plainUrl]) := by decide
example : (main sampleArgs mainOracleOk).1 = .exit 0 "" := by decide
example : (main sampleArgs mainOracleOk).2 =
    [.registryNew "registry.example.com" "" "", .ping "registry.example.com",
     .registryNew "backup.example.com" "" "", .ping "backup.example.com",
     .manifestFetch "srcrepo" "latest",
     .hasLayer "dstrepo" "sha256:d1", .hasLayer "dstrepo" "sha256:d2",
     .putManifest "dstrepo" "latest" (buildDestManifest sampleManifest "dstrepo")] := by decide
example : main argsNoSrcRepo mainOracleOk =
    (.exit (-1) "A source repository name is required either with --src-repo or --repo", []) := by decide

/-! ## Helper lemmas -/

/-- Every event in a `connectToRegistry` trace is a connection event
(credential exchange, client construction or ping). -/
lemma connect_conn_only (u : String) (o : ConnOracle) :
    ((connectToRegistry u o).2.all fun ev => ev.isConnEv) = true := by
  unfold connectToRegistry newAndPing
  repeat' split
  all_goals simp [Ev.isConnEv]

/-- A connection event is not a layer operation, not a `PutManifest`
call, and satisfies any `putOnly` constraint. -/
lemma connEv_benign (ev : Ev) (h : ev.isConnEv = true) :
    ev.isLayerOp = false ∧ ev.isPutManifest = false ∧
      ∀ d dm, putOnly d dm ev = true := by
  cases ev <;> simp_all [Ev.isConnEv, Ev.isLayerOp, Ev.isPutManifest, putOnly]

/-- Weakening for `List.all` over event traces. -/
lemma all_weaken {p q : Ev → Bool} (l : List Ev)
    (h : ∀ ev, p ev = true → q ev = true) (hl : (l.all p) = true) :
    (l.all q) = true := by
  rw [List.all_eq_true] at *
  exact fun ev hev => h ev (hl ev hev)

/-- A `connectToRegistry` trace holds no layer operation. -/
lemma connect_no_layerOp (u : String) (o : ConnOracle) :
    ((connectToRegistry u o).2.all fun ev => !ev.isLayerOp) = true := by
  refine all_weaken _ ?_ (connect_conn_only u o)
  intro ev h
  simp [(connEv_benign ev h).1]

/-- A `connectToRegistry` trace satisfies any `putOnly` constraint. -/
lemma connect_putOnly (u : String) (o : ConnOracle) (d : String) (dm : Manifest) :
    ((connectToRegistry u o).2.all (putOnly d dm)) = true := by
  refine all_weaken _ ?_ (connect_conn_only u o)
  intro ev h
  exact (connEv_benign ev h).2.2 d dm

/-- A `moveLayerUsingFile` trace holds no `PutManifest` call. -/
lemma moveLayerUsingFile_no_put (s d dg : String) (o : LayerOracle) :
    ((moveLayerUsingFile s d dg o).2.all fun ev => !ev.isPutManifest) = true := by
  unfold moveLayerUsingFile
  repeat' split
  all_goals simp [Ev.isPutManifest]

/-- A `migrateLayer` trace holds no `PutManifest` call. -/
lemma migrateLayer_no_put (s d dg : String) (o : LayerOracle) :
    ((migrateLayer s d dg o).2.all fun ev => !ev.isPutManifest) = true := by
  have h1 := moveLayerUsingFile_no_put s d dg o
  rcases hmv : moveLayerUsingFile s d dg o with ⟨r, evs⟩
  rw [hmv] at h1
  simp only [] at h1
  unfold migrateLayer
  rw [hmv]
  repeat' split
  all_goals simp_all [List.all_append, Ev.isPutManifest]

/-- A `migrateLayers` trace holds no `PutManifest` call. -/
lemma migrateLayers_no_put (s d : String) (los : Nat → LayerOracle)
    (ds : List String) (i : Nat) :
    ((migrateLayers s d los ds i).2.all fun ev => !ev.isPutManifest) = true := by
  induction ds generalizing i with
  | nil => simp [migrateLayers]
  | cons d0 ds ih =>
    have h1 := migrateLayer_no_put s d d0 (los i)
    rcases hml : migrateLayer s d d0 (los i) with ⟨r, evs⟩
    rw [hml] at h1
    unfold migrateLayers
    rw [hml]
    cases r <;> simp_all [List.all_append]
    · rcases hrest : migrateLayers s d los ds (i + 1) with ⟨r2, evs2⟩
      have h2 := ih (i + 1)
      rw [hrest] at h2
      simp_all [List.all_append]

/-- An event that is not a `PutManifest` call satisfies any `putOnly`
constraint. -/
lemma putOnly_of_not_put (ev : Ev) (h : ev.isPutManifest = false)
    (d : String) (dm : Manifest) : putOnly d dm ev = true := by
  cases ev <;> simp_all [Ev.isPutManifest, putOnly]

/-- On the managed path with session, token and decoding succeeding and a
decoded payload splitting into at least two `:`-fields, `connectToRegistry`
reduces to `newAndPing` on the proxy endpoint with fields 0 and 1 as
credentials. -/
lemma connect_ecr_ok (url acct region tok proxy dec p0 p1 : String)
    (ps : List String) (o : ConnOracle)
    (hm : ecrFind url = some (acct, region))
    (hs : o.sessionRes = .ok ())
    (ht : o.tokenRes = .ok (tok, proxy))
    (hd : o.decodeRes = .ok dec)
    (hsp : goSplit dec ':' = p0 :: p1 :: ps) :
    connectToRegistry url o =
      newAndPing url proxy p0 p1 o.newRes o.pingRes [.getAuthToken acct region] := by
  unfold connectToRegistry
  simp only [hm, hs, ht, hd, hsp]

/-- A trace with no `PutManifest` call satisfies any `putOnly`
constraint. -/
lemma all_putOnly_of_no_put (l : List Ev)
    (h : (l.all fun ev => !ev.isPutManifest) = true) (d : String) (dm : Manifest) :
    (l.all (putOnly d dm)) = true :=
  all_weaken l (fun ev hev => putOnly_of_not_put ev (by simpa using hev) d dm) h

/-! ## Claim C1 -/

/-- C1.  When the destination's `HasLayer` query answers `true`,
`migrateLayer` returns success right away: its trace is the single
existence check, so it performs zero `DownloadLayer` and zero
`UploadLayer` calls — re-running migration over an already-migrated
layer is a no-op. -/
theorem migrateLayer_skips_present_layer (srcRepo destRepo digest : String)
    (o : LayerOracle) (h : o.hasLayerRes = .ok true) :
    migrateLayer srcRepo destRepo digest o = (.ok (), [.hasLayer destRepo digest]) ∧
    ((migrateLayer srcRepo destRepo digest o).2.all
      fun ev => !ev.isDownload && !ev.isUpload) = true := by
  unfold migrateLayer
  rw [h]
  simp [Ev.isDownload, Ev.isUpload]

/-- Witness for C1 at a concrete oracle whose destination already holds
the layer. -/
theorem migrateLayer_skips_present_layer_witness :
    migrateLayer "srcrepo" "dstrepo" "sha256:d1" layerOraclePresent =
      (.ok (), [.hasLayer "dstrepo" "sha256:d1"]) ∧
    ((migrateLayer "srcrepo" "dstrepo" "sha256:d1" layerOraclePresent).2.all
      fun ev => !ev.isDownload && !ev.isUpload) = true :=
  migrateLayer_skips_present_layer "srcrepo" "dstrepo" "sha256:d1"
    layerOraclePresent rfl

/-! ## Claim C2 -/

/-- C2 counterexample.  A layer absent at the destination
(`HasLayer` answers `false` without error) whose download call fails:
`migrateLayer` performs zero `UploadLayer` calls, not exactly one, so
the claim as stated is false. -/
theorem migrateLayer_absent_counterexample :
    layerOracleDownloadFail.hasLayerRes = Except.ok false ∧
    ((migrateLayer "srcrepo" "dstrepo" "sha256:d1" layerOracleDownloadFail).2.countP
      fun ev => ev.isUpload) = 0 ∧
    ¬ (((migrateLayer "srcrepo" "dstrepo" "sha256:d1" layerOracleDownloadFail).2.countP
      fun ev => ev.isUpload) = 1) := by
  refine ⟨rfl, by decide, by decide⟩

/-- C2 as amended.  For a layer absent at the destination whose temp
file is created: `migrateLayer` performs at most one download and at
most one upload — exactly one of each when download, copy and re-open
all succeed — the temp file is removed on every exit path after its
creation regardless of the transfer outcome, and the call's result is
exactly the transfer's result: a failure of the removal itself never
reaches the caller. -/
theorem migrateLayer_absent_transfer_cleanup (srcRepo destRepo digest name : String)
    (o : LayerOracle) (habs : o.hasLayerRes = .ok false) (htmp : o.tempRes = .ok name) :
    ((migrateLayer srcRepo destRepo digest o).2.countP
        (fun ev => ev.isDownload)) ≤ 1 ∧
    ((migrateLayer srcRepo destRepo digest o).2.countP
        (fun ev => ev.isUpload)) ≤ 1 ∧
    Ev.tempRemove name ∈ (migrateLayer srcRepo destRepo digest o).2 ∧
    (migrateLayer srcRepo destRepo digest o).1 =
      (moveLayerUsingFile srcRepo destRepo digest o).1 ∧
    (o.downloadRes = .ok () → o.copyRes = .ok () → o.openRes = .ok () →
      ((migrateLayer srcRepo destRepo digest o).2.countP
          (fun ev => ev.isDownload)) = 1 ∧
      ((migrateLayer srcRepo destRepo digest o).2.countP
          (fun ev => ev.isUpload)) = 1) := by
  rcases hdl : o.downloadRes with e2 | ⟨⟩ <;>
  rcases hcp : o.copyRes with e3 | ⟨⟩ <;>
  rcases hop : o.openRes with e4 | ⟨⟩ <;>
  rcases hup : o.uploadRes with e5 | ⟨⟩ <;>
  rcases hrm : o.removeRes with e6 | ⟨⟩ <;>
  simp [migrateLayer, moveLayerUsingFile, habs, htmp, hdl, hcp, hop, hup, hrm,
    Ev.isDownload, Ev.isUpload, List.countP_cons, List.countP_nil]

/-- Witness for the amended C2 at a concrete oracle in which the layer
is absent and the whole transfer succeeds. -/
theorem migrateLayer_absent_transfer_cleanup_witness :
    ((migrateLayer "srcrepo" "dstrepo" "sha256:d1" layerOracleAbsentOk).2.countP
        (fun ev => ev.isDownload)) ≤ 1 ∧
    ((migrateLayer "srcrepo" "dstrepo" "sha256:d1" layerOracleAbsentOk).2.countP
        (fun ev => ev.isUpload)) ≤ 1 ∧
    Ev.tempRemove "tmp1" ∈ (migrateLayer "srcrepo" "dstrepo" "sha256:d1" layerOracleAbsentOk).2 ∧
    (migrateLayer "srcrepo" "dstrepo" "sha256:d1" layerOracleAbsentOk).1 =
      (moveLayerUsingFile "srcrepo" "dstrepo" "sha256:d1" layerOracleAbsentOk).1 ∧
    (layerOracleAbsentOk.downloadRes = .ok () → layerOracleAbsentOk.copyRes = .ok () →
      layerOracleAbsentOk.openRes = .ok () →
      ((migrateLayer "srcrepo" "dstrepo" "sha256:d1" layerOracleAbsentOk).2.countP
          (fun ev => ev.isDownload)) = 1 ∧
      ((migrateLayer "srcrepo" "dstrepo" "sha256:d1" layerOracleAbsentOk).2.countP
          (fun ev => ev.isUpload)) = 1) :=
  migrateLayer_absent_transfer_cleanup "srcrepo" "dstrepo" "sha256:d1" "tmp1"
    layerOracleAbsentOk rfl rfl

/-! ## Claim C10 -/

/-- C10.  When the download side fails — `DownloadLayer` errors, or the
copy into the temp file errors, or re-opening the temp file errors —
`migrateLayer` never invokes `UploadLayer`, leaving the destination
registry unchanged by that call. -/
theorem downloadFailure_means_no_upload (srcRepo destRepo digest : String)
    (o : LayerOracle)
    (h : (∃ e, o.downloadRes = .error e) ∨ (∃ e, o.copyRes = .error e) ∨
         (∃ e, o.openRes = .error e)) :
    ((migrateLayer srcRepo destRepo digest o).2.all fun ev => !ev.isUpload) = true := by
  rcases hhl : o.hasLayerRes with e0 | b <;>
  [skip; cases b] <;>
  rcases htm : o.tempRes with e1 | nm <;>
  rcases hdl : o.downloadRes with e2 | ⟨⟩ <;>
  rcases hcp : o.copyRes with e3 | ⟨⟩ <;>
  rcases hop : o.openRes with e4 | ⟨⟩ <;>
  rcases hup : o.uploadRes with e5 | ⟨⟩ <;>
  rcases hrm : o.removeRes with e6 | ⟨⟩ <;>
  simp_all [migrateLayer, moveLayerUsingFile, Ev.isUpload]

/-- Witness for C10 at a concrete oracle whose `io.Copy` into the temp
file fails. -/
theorem downloadFailure_means_no_upload_witness :
    ((migrateLayer "srcrepo" "dstrepo" "sha256:d1" layerOracleCopyFail).2.all
      fun ev => !ev.isUpload) = true :=
  downloadFailure_means_no_upload "srcrepo" "dstrepo" "sha256:d1" layerOracleCopyFail
    (Or.inr (Or.inl ⟨"disk full", rfl⟩))

/-! ## Claim C4 -/

/-- C4 counterexample.  A managed-registry URL whose token decodes to
`AWS:pa:ss`: the produced password is `pa` — the text between the first
and second `:` — not `pa:ss`, the text after the first `:` that the
claim predicts, so the claim as stated is false. -/
theorem connect_managed_counterexample :
    (connectToRegistry ecrUrl connOracleTwoColons).1 =
      .ok ⟨"https://proxy.example", "AWS", "pa"⟩ ∧
    (connectToRegistry ecrUrl connOracleTwoColons).1 ≠
      .ok ⟨"https://proxy.example", "AWS", "pa:ss"⟩ := by
  exact ⟨by decide, by decide⟩

/-- C4 as amended.  For a managed-registry URL (the 12-digit account id
plus region matched in the hostname), with the credential exchange,
decoding, client construction and ping all succeeding, the connection is
built against the returned proxy endpoint instead of the original URL,
with username the field before the first `:` of the decoded token and
password the field between the first and second `:` (the program splits
on every `:` and takes the first two fields, not the whole remainder
after the first `:`). -/
theorem connect_managed_credentials (url acct region tok proxy dec p0 p1 : String)
    (ps : List String) (o : ConnOracle)
    (hm : ecrFind url = some (acct, region))
    (hs : o.sessionRes = .ok ())
    (ht : o.tokenRes = .ok (tok, proxy))
    (hd : o.decodeRes = .ok dec)
    (hsp : goSplit dec ':' = p0 :: p1 :: ps)
    (hn : o.newRes = .ok ())
    (hp : o.pingRes = .ok ()) :
    connectToRegistry url o =
      (.ok ⟨proxy, p0, p1⟩,
       [.getAuthToken acct region, .registryNew proxy p0 p1, .ping proxy]) := by
  rw [connect_ecr_ok url acct region tok proxy dec p0 p1 ps o hm hs ht hd hsp]
  unfold newAndPing
  simp only [hn, hp]
  rfl

/-- Witness for the amended C4 at the sample ECR URL with token payload
`AWS:secret`. -/
theorem connect_managed_credentials_witness :
    connectToRegistry ecrUrl connOracleOk =
      (.ok ⟨"https://proxy.example", "AWS", "secret"⟩,
       [.getAuthToken "123456789012" "us-east-1",
        .registryNew "https://proxy.example" "AWS" "secret",
        .ping "https://proxy.example"]) :=
  connect_managed_credentials ecrUrl "123456789012" "us-east-1" "dG9r"
    "https://proxy.example" "AWS:secret" "AWS" "secret" [] connOracleOk
    (by decide) rfl rfl rfl (by decide) rfl rfl

/-! ## Claim C5 -/

/-- C5.  A managed-registry URL whose token base64-decodes to a payload
with no `:` separator: the program evaluates `parts[1]` on a
one-element slice and panics (index out of range) instead of returning
an error.  This evaluates the code at the failing input of the claim. -/
theorem connect_malformed_token_panics :
    connectToRegistry ecrUrl connOracleNoColon =
      (.panic, [.getAuthToken "123456789012" "us-east-1"]) := by decide

/-! ## Claim C6 -/

/-- C6.  For a URL not matching the managed-registry pattern, no cloud
credential exchange happens (no `GetAuthorizationToken` event), the
client is built for the original URL with empty username and password,
and when construction and ping succeed the resulting handle carries the
original URL with empty credentials. -/
theorem connect_unmanaged_passthrough (url : String) (o : ConnOracle)
    (h : ecrFind url = none) :
    ((connectToRegistry url o).2.all fun ev => !ev.isAuthExchange) = true ∧
    (connectToRegistry url o).2.head? = some (.registryNew url "" "") ∧
    (o.newRes = .ok () → o.pingRes = .ok () →
      connectToRegistry url o = (.ok ⟨url, "", ""⟩, [.registryNew url "" "", .ping url])) := by
  rcases hn : o.newRes with e | ⟨⟩ <;>
  rcases hp : o.pingRes with e2 | ⟨⟩ <;>
  simp_all [connectToRegistry, newAndPing, Ev.isAuthExchange]

/-- Witness for C6 at a concrete non-ECR URL. -/
theorem connect_unmanaged_passthrough_witness :
    ((connectToRegistry plainUrl connOracleOk).2.all fun ev => !ev.isAuthExchange) = true ∧
    (connectToRegistry plainUrl connOracleOk).2.head? =
      some (.registryNew plainUrl "" "") ∧
    (connOracleOk.newRes = .ok () → connOracleOk.pingRes = .ok () →
      connectToRegistry plainUrl connOracleOk =
        (.ok ⟨plainUrl, "", ""⟩, [.registryNew plainUrl "" "", .ping plainUrl])) :=
  connect_unmanaged_passthrough plainUrl connOracleOk (by decide)

/-! ## Claim C9 -/

/-- C9 counterexample.  A managed-registry URL whose token decodes to
`AWS:` (empty password field): the produced endpoint has a nonempty
username and an empty password, so the both-set-or-both-empty invariant
as stated is false. -/
theorem credBalanced_counterexample :
    (connectToRegistry ecrUrl connOracleEmptyPassword).1 =
      .ok ⟨"https://proxy.example", "AWS", ""⟩ ∧
    ¬ credBalanced ⟨"https://proxy.example", "AWS", ""⟩ := by
  exact ⟨by decide, by decide⟩

/-- C9 as amended.  Non-managed registries always get both credentials
empty (so the invariant holds there); managed registries get the first
two `:`-fields of the decoded token as username and password, and the
invariant holds whenever those two fields are nonempty — it can be
violated when the decoded token carries an empty field, e.g. `AWS:`. -/
theorem credentials_bothOrNeither :
    (∀ url (o : ConnOracle) (r : Registry) (evs : List Ev),
      ecrFind url = none → connectToRegistry url o = (.ok r, evs) →
      r.username = "" ∧ r.password = "" ∧ credBalanced r) ∧
    (∀ url acct region tok proxy dec p0 p1 (ps : List String) (o : ConnOracle)
      (r : Registry) (evs : List Ev),
      ecrFind url = some (acct, region) → o.sessionRes = .ok () →
      o.tokenRes = .ok (tok, proxy) → o.decodeRes = .ok dec →
      goSplit dec ':' = p0 :: p1 :: ps → p0 ≠ "" → p1 ≠ "" →
      connectToRegistry url o = (.ok r, evs) →
      r.username ≠ "" ∧ r.password ≠ "" ∧ credBalanced r) := by
  constructor
  · intro url o r evs hnone hconn
    rcases hn : o.newRes with e | ⟨⟩ <;> rcases hp : o.pingRes with e2 | ⟨⟩ <;>
      simp_all [connectToRegistry, newAndPing, credBalanced]
    simp [← hconn.1]
  · intro url acct region tok proxy dec p0 p1 ps o r evs hm hs ht hd hsp hp0 hp1 hconn
    rw [connect_ecr_ok url acct region tok proxy dec p0 p1 ps o hm hs ht hd hsp] at hconn
    rcases hn : o.newRes with e | ⟨⟩ <;> rcases hpg : o.pingRes with e2 | ⟨⟩ <;>
      simp_all [newAndPing, credBalanced]
    simp [← hconn.1, hp0, hp1]

/-- Witness for the amended C9: both clauses at concrete inputs — the
plain URL yields empty credentials, the ECR URL with payload
`AWS:secret` yields two nonempty credentials. -/
theorem credentials_bothOrNeither_witness :
    ((Registry.mk plainUrl "" "").username = "" ∧
     (Registry.mk plainUrl "" "").password = "" ∧
     credBalanced (Registry.mk plainUrl "" "")) ∧
    ((Registry.mk "https://proxy.example" "AWS" "secret").username ≠ "" ∧
     (Registry.mk "https://proxy.example" "AWS" "secret").password ≠ "" ∧
     credBalanced (Registry.mk "https://proxy.example" "AWS" "secret")) := by
  constructor
  · exact credentials_bothOrNeither.1 plainUrl connOracleOk ⟨plainUrl, "", ""⟩
      [.registryNew plainUrl "" "", .ping plainUrl] (by decide) (by decide)
  · exact credentials_bothOrNeither.2 ecrUrl "123456789012" "us-east-1" "dG9r"
      "https://proxy.example" "AWS:secret" "AWS" "secret" [] connOracleOk
      ⟨"https://proxy.example", "AWS", "secret"⟩
      [.getAuthToken "123456789012" "us-east-1",
       .registryNew "https://proxy.example" "AWS" "secret",
       .ping "https://proxy.example"]
      (by decide) rfl rfl rfl (by decide) (by decide) (by decide) (by decide)

/-! ## Claim C7 -/

/-- C7.  When the effective source or destination repository name (after
the `--repo` fallback) is empty, `main` stops with exit code `-1` and one
of the two configuration messages, and its trace is empty: no network
call at all is made. -/
theorem main_validates_before_network (a : Args) (o : MainOracle)
    (h : effSrcRepo a = "" ∨ effDestRepo a = "") :
    (main a o).2 = [] ∧
    ((main a o).1 =
        .exit (-1) "A source repository name is required either with --src-repo or --repo" ∨
     (main a o).1 =
        .exit (-1) "A destination repository name is required either with --dest-repo or --repo") := by
  by_cases hs : effSrcRepo a = ""
  · simp [main, hs]
  · rcases h with h | h
    · exact absurd h hs
    · simp [main, hs, h]

/-- Witness for C7 at arguments with both `--src-repo` and `--repo`
empty. -/
theorem main_validates_before_network_witness :
    (main argsNoSrcRepo mainOracleOk).2 = [] ∧
    ((main argsNoSrcRepo mainOracleOk).1 =
        .exit (-1) "A source repository name is required either with --src-repo or --repo" ∨
     (main argsNoSrcRepo mainOracleOk).1 =
        .exit (-1) "A destination repository name is required either with --dest-repo or --repo") :=
  main_validates_before_network argsNoSrcRepo mainOracleOk (Or.inl (by decide))

/-! ## Claim C8 -/

/-- C8.  Connections are attempted source-first, destination-second:
when the source connection fails, `main` stops with its trace being the
source connection's calls alone (the destination connection is never
attempted); when the source connection succeeded and the destination
connection fails, `main` stops with exit code `-1`, its trace is the
source connection's calls followed by the destination connection's
calls, and that trace holds zero layer operations. -/
theorem connections_source_first (a : Args) (o : MainOracle) (r : Registry)
    (es em : String) (sevs devs : List Ev)
    (hs : effSrcRepo a ≠ "") (hd : effDestRepo a ≠ "") :
    (connectToRegistry a.srcURL o.srcConn = (.err es, sevs) →
      main a o =
        (.exit (-1) ("Failed to establish a connection to the source registry. " ++ es),
         sevs)) ∧
    (connectToRegistry a.srcURL o.srcConn = (.ok r, sevs) →
     connectToRegistry a.destURL o.destConn = (.err em, devs) →
      main a o =
        (.exit (-1) ("Failed to establish a connection to the destination registry. " ++ em),
         sevs ++ devs) ∧
      ((sevs ++ devs).all fun ev => !ev.isLayerOp) = true) := by
  constructor
  · intro h1
    simp [main, hs, hd, h1]
  · intro h1 h2
    have t1 := connect_no_layerOp a.srcURL o.srcConn
    have t2 := connect_no_layerOp a.destURL o.destConn
    rw [h1] at t1
    rw [h2] at t2
    refine ⟨by simp [main, hs, hd, h1, h2], ?_⟩
    simp_all [List.all_append]

/-- Witness for C8 at a run whose destination ping fails. -/
theorem connections_source_first_witness :
    (connectToRegistry sampleArgs.srcURL mainOracleDestPingFail.srcConn =
        (.err "unused", [.registryNew "registry.example.com" "" "", .ping "registry.example.com"]) →
      main sampleArgs mainOracleDestPingFail =
        (.exit (-1) "Failed to establish a connection to the source registry. unused",
         [.registryNew "registry.example.com" "" "", .ping "registry.example.com"])) ∧
    (connectToRegistry sampleArgs.srcURL mainOracleDestPingFail.srcConn =
        (.ok ⟨"registry.example.com", "", ""⟩,
         [.registryNew "registry.example.com" "" "", .ping "registry.example.com"]) →
     connectToRegistry sampleArgs.destURL mainOracleDestPingFail.destConn =
        (.err "Failed to ping registry backup.example.com as a connection test. dial timeout",
         [.registryNew "backup.example.com" "" "", .ping "backup.example.com"]) →
      main sampleArgs mainOracleDestPingFail =
        (.exit (-1) ("Failed to establish a connection to the destination registry. "
           ++ "Failed to ping registry backup.example.com as a connection test. dial timeout"),
         [Ev.registryNew "registry.example.com" "" "", Ev.ping "registry.example.com"]
           ++ [Ev.registryNew "backup.example.com" "" "", Ev.ping "backup.example.com"]) ∧
      (([Ev.registryNew "registry.example.com" "" "", Ev.ping "registry.example.com"]
          ++ [Ev.registryNew "backup.example.com" "" "", Ev.ping "backup.example.com"]).all
         fun ev => !ev.isLayerOp) = true) :=
  connections_source_first sampleArgs mainOracleDestPingFail
    ⟨"registry.example.com", "", ""⟩ "unused"
    "Failed to ping registry backup.example.com as a connection test. dial timeout"
    [.registryNew "registry.example.com" "" "", .ping "registry.example.com"]
    [.registryNew "backup.example.com" "" "", .ping "backup.example.com"]
    (by decide) (by decide)

/-! ## Claim C3 -/

/-- C3.  Every manifest a run hands to `PutManifest` is the derived copy
of the fetched source manifest with only the repository name replaced by
the effective destination repository: same layer digest list in the same
order, same tag, architecture and history fields; and the publish step's
copy discipline returns the source manifest unchanged next to the
derived copy (the Go struct is copied by value before its `Name` field
is assigned). -/
theorem manifest_rewrite (a : Args) (o : MainOracle) (src : Manifest)
    (h : o.manifestRes = .ok src) :
    ((main a o).2.all
      (putOnly (effDestRepo a) (buildDestManifest src (effDestRepo a)))) = true ∧
    (buildDestManifest src (effDestRepo a)).fsLayers = src.fsLayers ∧
    (buildDestManifest src (effDestRepo a)).name = effDestRepo a ∧
    (buildDestManifest src (effDestRepo a)).tag = src.tag ∧
    (buildDestManifest src (effDestRepo a)).architecture = src.architecture ∧
    (buildDestManifest src (effDestRepo a)).history = src.history ∧
    publishManifests src (effDestRepo a) = (src, buildDestManifest src (effDestRepo a)) := by
  refine ⟨?_, rfl, rfl, rfl, rfl, rfl, rfl⟩
  by_cases hs : effSrcRepo a = ""
  · simp [main, hs]
  · by_cases hd : effDestRepo a = ""
    · simp [main, hs, hd]
    · have t1 := connect_putOnly a.srcURL o.srcConn (effDestRepo a)
        (buildDestManifest src (effDestRepo a))
      rcases hsc : connectToRegistry a.srcURL o.srcConn with ⟨c1, evs1⟩
      rw [hsc] at t1
      cases c1 with
      | panic =>
        simp only [main, hs, hd, hsc]
        exact t1
      | err e =>
        simp only [main, hs, hd, hsc]
        exact t1
      | ok srcHub =>
        have t2 := connect_putOnly a.destURL o.destConn (effDestRepo a)
          (buildDestManifest src (effDestRepo a))
        rcases hdc : connectToRegistry a.destURL o.destConn with ⟨c2, evs2⟩
        rw [hdc] at t2
        cases c2 with
        | panic =>
          simp only [main]
          rw [if_neg hs, if_neg hd]
          simp only [hsc, hdc, List.all_append, Bool.and_eq_true]
          exact ⟨t1, t2⟩
        | err e =>
          simp only [main]
          rw [if_neg hs, if_neg hd]
          simp only [hsc, hdc, List.all_append, Bool.and_eq_true]
          exact ⟨t1, t2⟩
        | ok destHub =>
          have t3 := all_putOnly_of_no_put _
            (migrateLayers_no_put (effSrcRepo a) (effDestRepo a) o.layerO src.fsLayers 0)
            (effDestRepo a) (buildDestManifest src (effDestRepo a))
          rcases hml : migrateLayers (effSrcRepo a) (effDestRepo a) o.layerO src.fsLayers 0
            with ⟨lr, levs⟩
          rw [hml] at t3
          cases lr with
          | error e =>
            simp only [main]
            rw [if_neg hs, if_neg hd]
            simp only [hsc, hdc, h, hml, List.all_append, List.all_cons, List.all_nil,
              Bool.and_eq_true]
            refine ⟨⟨⟨t1, t2⟩, ?_, trivial⟩, t3⟩
            simp [putOnly]
          | ok u =>
            cases hput : o.putRes with
            | error e =>
              simp only [main]
              rw [if_neg hs, if_neg hd]
              simp only [hsc, hdc, h, hml, hput, List.all_append, List.all_cons,
                List.all_nil, Bool.and_eq_true]
              refine ⟨⟨⟨⟨t1, t2⟩, ?_, trivial⟩, t3⟩, ?_, trivial⟩ <;> simp [putOnly]
            | ok u2 =>
              simp only [main]
              rw [if_neg hs, if_neg hd]
              simp only [hsc, hdc, h, hml, hput, List.all_append, List.all_cons,
                List.all_nil, Bool.and_eq_true]
              refine ⟨⟨⟨⟨t1, t2⟩, ?_, trivial⟩, t3⟩, ?_, trivial⟩ <;> simp [putOnly]

/-- Witness for C3 at a fully successful sample run. -/
theorem manifest_rewrite_witness :
    ((main sampleArgs mainOracleOk).2.all
      (putOnly (effDestRepo sampleArgs)
        (buildDestManifest sampleManifest (effDestRepo sampleArgs)))) = true ∧
    (buildDestManifest sampleManifest (effDestRepo sampleArgs)).fsLayers =
      sampleManifest.fsLayers ∧
    (buildDestManifest sampleManifest (effDestRepo sampleArgs)).name =
      effDestRepo sampleArgs ∧
    (buildDestManifest sampleManifest (effDestRepo sampleArgs)).tag =
      sampleManifest.tag ∧
    (buildDestManifest sampleManifest (effDestRepo sampleArgs)).architecture =
      sampleManifest.architecture ∧
    (buildDestManifest sampleManifest (effDestRepo sampleArgs)).history =
      sampleManifest.history ∧
    publishManifests sampleManifest (effDestRepo sampleArgs) =
      (sampleManifest, buildDestManifest sampleManifest (effDestRepo sampleArgs)) :=
  manifest_rewrite sampleArgs mainOracleOk sampleManifest rfl

end CopyDockerImage
